import Mathlib

/-!
Shallow embedding of the CrawlOneflare repository (src/crawl_V2.py and
src/crawl_V3.py).

The scripts drive a browser with Selenium.  We model the browser-visible
page state explicitly: an element lookup that can fail (Selenium's
`NoSuchElementException`, or a thrown lookup) is an `Option`, an element's
`.text` is a `String`, the phone element's one-time reveal click is a flag
saying whether the click raises together with the text visible before and
after the click, and `find_elements`/`find_all` results are `List`s in DOM
query order.

Python string primitives used by the scripts (`str.strip`,
`str.replace(",", "")`, `re.search(r"\d+", ...)`, the substring test
`label in text` and `text.split(label, ...)`) are embedded as executable
functions over `List Char` below.
-/

set_option autoImplicit false

/-! ### Python string primitives -/

/-- Characters of `str.strip()`: whitespace removed from both ends. -/
def stripChars (l : List Char) : List Char :=
  ((l.dropWhile Char.isWhitespace).reverse.dropWhile Char.isWhitespace).reverse

/-- Python `s.strip()`. -/
def strip (s : String) : String :=
  ⟨stripChars s.data⟩

/-- Python `s.replace(",", "")`: every comma removed. -/
def removeCommas (s : String) : String :=
  ⟨s.data.filter (fun c => c ≠ ',')⟩

/-- Python `re.search(r"\d+", s)`: the first contiguous run of digits,
`none` when the text has no digit. -/
def firstDigitRun : List Char → Option (List Char)
  | [] => none
  | c :: cs =>
    if c.isDigit then some (c :: cs.takeWhile Char.isDigit)
    else firstDigitRun cs

/-- The characters after the first (leftmost) occurrence of `label`;
`none` when `label` does not occur.  For a nonempty `label`,
`(afterFirst label l).isSome` is Python's `label in text` and the result
is `text.split(label, 1)[1]`. -/
def afterFirst (label : List Char) : List Char → Option (List Char)
  | [] => none
  | c :: cs =>
    if List.isPrefixOf label (c :: cs) then some (List.drop label.length (c :: cs))
    else afterFirst label cs

/-- The characters before the first occurrence of `label` (the whole list
when `label` does not occur).  `beforeFirst label (afterFirst label l)`
is Python's `text.split(label)[1]`. -/
def beforeFirst (label : List Char) : List Char → List Char
  | [] => []
  | c :: cs =>
    if List.isPrefixOf label (c :: cs) then []
    else c :: beforeFirst label cs

/-- String version of `afterFirst`. -/
def afterFirstStr (label s : String) : Option String :=
  (afterFirst label.data s.data).map (fun l => ⟨l⟩)

/-- String version of `beforeFirst`. -/
def beforeFirstStr (label s : String) : String :=
  ⟨beforeFirst label.data s.data⟩

/-! ### Page model -/

/-- The phone-reveal anchor (`//a[@data-tooltip-content=...]`): the text
visible before the reveal click, the text after a successful click, and
whether the `click()` call raises. -/
structure PhoneElem where
  visibleText : String
  revealedText : String
  clickFails : Bool
deriving DecidableEq, Repr

/-- The text Selenium's `element.text` returns after the crawler attempts
the reveal click: the revealed text when the click succeeded, the
still-visible text when it raised. -/
def phoneText (p : PhoneElem) : String :=
  if p.clickFails then p.visibleText else p.revealedText

/-- One business page as the extractors observe it: result of the name
lookup (`//h1`), of the jobs-block lookup, of the phone-anchor lookup,
and the texts of the detail blocks (`.sc-906e671e-5.bQwqNJ`) in DOM
query order. -/
structure PageState where
  nameElem : Option String
  jobsElem : Option String
  phoneElem : Option PhoneElem
  detailBlocks : List String
deriving DecidableEq, Repr

/-- One anchor found on the category page; `href` is `none` when the
attribute is absent (Selenium returns `None`). -/
structure LinkElem where
  href : Option String
deriving DecidableEq, Repr

/-- crawl_V3.py `BusinessRecord` (also the shape of crawl_V2.py's result
dict after `record["URL"] = url`). -/
structure BusinessRecord where
  business_name : String
  jobs_completed : String
  phone_number : String
  website_url : String
  address : String
  url : String
deriving DecidableEq, Repr

/-! ### crawl_V3.py extractors -/

/-- crawl_V3.py `OneFlareCrawler._safe_get_text`: element text stripped,
the sentinel for an absent element or empty stripped text. -/
def safe_get_text (elem : Option String) : String :=
  match elem with
  | none => "N/A"
  | some t =>
    let s := strip t
    if s = "" then "N/A" else s

/-- crawl_V3.py `OneFlareCrawler._extract_jobs_completed`: safe text of
the jobs block; commas removed, then the first digit run. -/
def extract_jobs_completed (jobsElem : Option String) : String :=
  let text := safe_get_text jobsElem
  if text = "N/A" then text
  else
    match firstDigitRun (removeCommas text).data with
    | some ds => ⟨ds⟩
    | none => "N/A"

/-- crawl_V3.py `OneFlareCrawler._extract_phone_number`: absent anchor is
the sentinel; a failing click is swallowed and the element's text (after
the attempted click) is stripped, empty collapsing to the sentinel. -/
def extract_phone_number (phoneElem : Option PhoneElem) : String :=
  match phoneElem with
  | none => "N/A"
  | some p =>
    let text := strip (phoneText p)
    if text = "" then "N/A" else text

/-- crawl_V3.py `OneFlareCrawler._extract_detail_by_label`: scan blocks in
DOM order; on the first block whose stripped text contains `label`,
return the text after the label, stripped, empty collapsing to the
sentinel; sentinel when no block matches. -/
def extract_detail_by_label (label : String) : List String → String
  | [] => "N/A"
  | b :: bs =>
    let raw := strip b
    match afterFirstStr label raw with
    | some rest =>
      let value := strip rest
      if value = "" then "N/A" else value
    | none => extract_detail_by_label label bs

/-- crawl_V3.py `OneFlareCrawler._extract_business_data` on one page:
the five field extractors in fixed order plus the source URL. -/
def extract_business_data (page : PageState) (url : String) : BusinessRecord :=
  ⟨safe_get_text page.nameElem,
   extract_jobs_completed page.jobsElem,
   extract_phone_number page.phoneElem,
   extract_detail_by_label "Website:" page.detailBlocks,
   extract_detail_by_label "Address:" page.detailBlocks,
   url⟩

/-- crawl_V3.py `OneFlareCrawler._collect_business_links`: hrefs of the
link anchors in order, skipping falsy (absent or empty) hrefs. -/
def collect_business_links : List LinkElem → List String
  | [] => []
  | l :: ls =>
    match l.href with
    | some h =>
      if h = "" then collect_business_links ls
      else h :: collect_business_links ls
    | none => collect_business_links ls

/-- The loop of crawl_V3.py `OneFlareCrawler.run` (and the main loop of
crawl_V2.py): per-URL extraction inside a per-URL failure boundary.
`pages url = none` models an unexpected per-URL failure (navigation
error, driver error): the URL is skipped and the loop continues. -/
def crawler_run (pages : String → Option PageState) : List String → List BusinessRecord
  | [] => []
  | url :: rest =>
    match pages url with
    | some page => extract_business_data page url :: crawler_run pages rest
    | none => crawler_run pages rest

/-! ### crawl_V2.py extract_data, per try-block -/

/-- crawl_V2.py `extract_data`, business-name branch: the raw element
text (no strip, empty text kept); sentinel only when the lookup throws
(element absent). -/
def v2_business_name (nameElem : Option String) : String :=
  match nameElem with
  | none => "N/A"
  | some t => t

/-- crawl_V2.py `extract_data`, jobs branch: first digit run of the raw
text (no comma stripping); sentinel when no digit or element absent. -/
def v2_jobs_completed (jobsElem : Option String) : String :=
  match jobsElem with
  | none => "N/A"
  | some t =>
    match firstDigitRun t.data with
    | some ds => ⟨ds⟩
    | none => "N/A"

/-- crawl_V2.py `extract_data`, phone branch: the whole try block fails
to the sentinel when the lookup or the click throws; otherwise the raw
element text after the click (no strip, empty text kept). -/
def v2_phone_number (phoneElem : Option PhoneElem) : String :=
  match phoneElem with
  | none => "N/A"
  | some p =>
    if p.clickFails then "N/A" else p.revealedText

/-- crawl_V2.py `extract_data`, website/address branches: scan blocks in
DOM order; on the first block containing `label`, return
`text.split(label)[1].strip()` (the stripped text between the first and
second occurrence of the label) and break; sentinel when no block
matches. -/
def v2_detail_value (label : String) : List String → String
  | [] => "N/A"
  | b :: bs =>
    match afterFirstStr label b with
    | some rest => strip (beforeFirstStr label rest)
    | none => v2_detail_value label bs

/-- crawl_V2.py `extract_data` on one page, with the loop's
`record["URL"] = url` applied. -/
def extract_data (page : PageState) (url : String) : BusinessRecord :=
  ⟨v2_business_name page.nameElem,
   v2_jobs_completed page.jobsElem,
   v2_phone_number page.phoneElem,
   v2_detail_value "Website:" page.detailBlocks,
   v2_detail_value "Address:" page.detailBlocks,
   url⟩

/-! ### crawl_V3.py CrawlerSettings -/

/-- crawl_V3.py `CrawlerSettings` dataclass fields.  The three delay
fields are Python floats used only as opaque data here; they are modelled
as rationals. -/
structure CrawlerSettings where
  category_url : String
  preload_delay : Rat
  business_page_delay : Rat
  output_file : String
  wait_timeout : Rat
  business_links_xpath : String
  name_xpath : String
  jobs_xpath : String
  phone_xpath : String
  detail_css_selector : String
deriving DecidableEq, Repr

/-- crawl_V3.py `CrawlerSettings.__post_init__`: dataclass construction
runs this validator on the fully assigned field set; it raises
`ValueError` exactly on a falsy (empty) `category_url` and performs no
other check. -/
def post_init (s : CrawlerSettings) : Except String CrawlerSettings :=
  if s.category_url = "" then Except.error "category_url must not be empty."
  else Except.ok s

/-! ### crawl_V3.py ExcelExporter and main -/

/-- crawl_V3.py `BusinessRecord.to_dict` (`dataclasses.asdict`): field
name/value pairs in declaration order. -/
def BusinessRecord.to_dict (r : BusinessRecord) : List (String × String) :=
  [("business_name", r.business_name),
   ("jobs_completed", r.jobs_completed),
   ("phone_number", r.phone_number),
   ("website_url", r.website_url),
   ("address", r.address),
   ("url", r.url)]

/-- crawl_V3.py `BusinessRecord.__dataclass_fields__.keys()`: the fixed
column order passed to the DataFrame. -/
def dataclass_field_keys : List String :=
  ["business_name", "jobs_completed", "phone_number", "website_url", "address", "url"]

/-- The written spreadsheet, abstracted to its header row and its data
rows (`to_excel` with `index=False` writes exactly these). -/
structure ExcelFile where
  columns : List String
  rows : List (List (String × String))
deriving DecidableEq, Repr

/-- crawl_V3.py `ExcelExporter.export`: a DataFrame over the fixed
dataclass column list, one row per record; the header is written even
for zero rows. -/
def exporterExport (records : List BusinessRecord) : ExcelFile :=
  ⟨dataclass_field_keys, records.map BusinessRecord.to_dict⟩

/-- The V3 pipeline after the driver exists: harvest links, run the
per-URL loop, export. -/
def mainExport (links : List LinkElem) (pages : String → Option PageState) : ExcelFile :=
  exporterExport (crawler_run pages (collect_business_links links))

/-! ### The browser session and crawl_V3.py main's try/finally -/

/-- The browser session owned by `main`; the only state the close claim
observes. -/
structure Session where
  closed : Bool
deriving DecidableEq, Repr

/-- `driver.quit()`. -/
def quitSession (_ : Session) : Session :=
  ⟨true⟩

/-- Python `try: body finally: fin`: the finaliser runs on the state
whether the body returned or raised, and the body's outcome (value or
re-raised exception) is kept. -/
def pyTryFinally {α : Type} (body : Session → Except Unit α × Session)
    (fin : Session → Session) (s : Session) : Except Unit α × Session :=
  let r := body s
  (r.1, fin r.2)

/-- crawl_V3.py `main` from the point the driver exists: `crawler.run()`
inside `try/finally driver.quit()`, then export on the success path.
`body` is the whole of `run` — any of its outcomes, including an
unexpected exception partway through extraction, is a value of this
argument. -/
def mainV3 (body : Session → Except Unit (List BusinessRecord) × Session)
    (s : Session) : Except Unit ExcelFile × Session :=
  let r := pyTryFinally body quitSession s
  match r.1 with
  | Except.ok records => (Except.ok (exporterExport records), r.2)
  | Except.error e => (Except.error e, r.2)

/-! ### Helper lemmas -/

theorem mem_of_mem_stripChars {c : Char} {l : List Char} (h : c ∈ stripChars l) : c ∈ l := by
  unfold stripChars at h
  rw [List.mem_reverse] at h
  have h2 := (List.dropWhile_sublist _).subset h
  rw [List.mem_reverse] at h2
  exact (List.dropWhile_sublist _).subset h2

theorem firstDigitRun_eq_none {l : List Char} (h : ∀ c ∈ l, c.isDigit = false) :
    firstDigitRun l = none := by
  induction l with
  | nil => rfl
  | cons c cs ih =>
    unfold firstDigitRun
    rw [h c (List.mem_cons_self c cs)]
    simp only [Bool.false_eq_true, if_false]
    exact ih fun x hx => h x (List.mem_cons_of_mem _ hx)

theorem no_digit_removeCommas_strip (t : String) (h : ∀ c ∈ t.data, c.isDigit = false) :
    firstDigitRun (removeCommas (strip t)).data = none := by
  apply firstDigitRun_eq_none
  intro c hc
  have hc2 : c ∈ (strip t).data := List.mem_of_mem_filter hc
  exact h c (mem_of_mem_stripChars hc2)

theorem beforeFirst_of_afterFirst_none (lab : List Char) :
    ∀ l : List Char, afterFirst lab l = none → beforeFirst lab l = l := by
  intro l
  induction l with
  | nil => intro _; rfl
  | cons c cs ih =>
    intro h
    unfold afterFirst at h
    unfold beforeFirst
    by_cases hp : List.isPrefixOf lab (c :: cs) = true
    · simp [hp] at h
    · simp only [Bool.not_eq_true] at hp
      simp only [hp, Bool.false_eq_true, if_false] at h ⊢
      rw [ih h]

/-! ### Claim theorems -/

/-- C2: each field extractor of crawl_V3.py (name, jobs, phone,
website/address) collapses an absent element (a throwing lookup) and an
empty or whitespace-only text to exactly the sentinel "N/A"; no
exception escapes (the functions are total) and the result in these
states is never empty. -/
theorem claim_C2_field_extractor_sentinel :
    (safe_get_text none = "N/A") ∧
    (∀ t : String, strip t = "" → safe_get_text (some t) = "N/A") ∧
    (extract_jobs_completed none = "N/A") ∧
    (∀ t : String, strip t = "" → extract_jobs_completed (some t) = "N/A") ∧
    (extract_phone_number none = "N/A") ∧
    (∀ p : PhoneElem, strip (phoneText p) = "" → extract_phone_number (some p) = "N/A") ∧
    (∀ label : String, extract_detail_by_label label [] = "N/A") ∧
    (∀ (label : String) (blocks : List String), (∀ b ∈ blocks, strip b = "") →
      extract_detail_by_label label blocks = "N/A") := by
  refine ⟨rfl, ?_, rfl, ?_, rfl, ?_, ?_, ?_⟩
  · intro t h; simp [safe_get_text, h]
  · intro t h; simp [extract_jobs_completed, safe_get_text, h]
  · intro p h; simp [extract_phone_number, h]
  · intro label; rfl
  · intro label blocks h
    induction blocks with
    | nil => rfl
    | cons b bs ih =>
      have hb : afterFirstStr label (strip b) = none := by
        rw [h b (List.mem_cons_self b bs)]; rfl
      simp only [extract_detail_by_label, hb]
      exact ih fun x hx => h x (List.mem_cons_of_mem _ hx)

/-- Witness for C2 at concrete inputs. -/
theorem claim_C2_witness :
    safe_get_text (some " ") = "N/A" ∧
    extract_jobs_completed (some " ") = "N/A" ∧
    extract_phone_number (some ⟨" ", "  ", false⟩) = "N/A" ∧
    extract_detail_by_label "Website:" ["", "  "] = "N/A" :=
  ⟨claim_C2_field_extractor_sentinel.2.1 " " (by decide),
   claim_C2_field_extractor_sentinel.2.2.2.1 " " (by decide),
   claim_C2_field_extractor_sentinel.2.2.2.2.2.1 ⟨" ", "  ", false⟩ (by decide),
   claim_C2_field_extractor_sentinel.2.2.2.2.2.2.2 "Website:" ["", "  "] (by decide)⟩

/-- C3: the V3 jobs extractor strips commas before taking the first
digit run ("1,234 jobs completed" gives "1234"), and returns the
sentinel for a digit-free text and for an absent block. -/
theorem claim_C3_jobs_completed_extraction :
    extract_jobs_completed (some "1,234 jobs completed") = "1234" ∧
    extract_jobs_completed none = "N/A" ∧
    (∀ t : String, (∀ c ∈ t.data, c.isDigit = false) →
      extract_jobs_completed (some t) = "N/A") := by
  refine ⟨by decide, rfl, ?_⟩
  intro t h
  by_cases h1 : strip t = ""
  · simp [extract_jobs_completed, safe_get_text, h1]
  · by_cases h2 : strip t = "N/A"
    · simp [extract_jobs_completed, safe_get_text, h1, h2]
    · simp [extract_jobs_completed, safe_get_text, h1, h2, no_digit_removeCommas_strip t h]

/-- Witness for C3's digit-free case at a concrete input. -/
theorem claim_C3_witness :
    extract_jobs_completed (some "no digits here") = "N/A" :=
  claim_C3_jobs_completed_extraction.2.2 "no digits here" (by decide)

/-- C4: the V3 website/address extractor returns the trimmed text after
the label of the first block (in DOM query order) whose text carries the
label — the spec's example sequence gives "https://acme.test" and
"1 Main St" — and the sentinel when no block carries the label or the
value after the label is empty. -/
theorem claim_C4_detail_label_extraction :
    extract_detail_by_label "Website:"
      ["Hours: 9-5", "Website: https://acme.test", "Address: 1 Main St"] =
      "https://acme.test" ∧
    extract_detail_by_label "Address:"
      ["Hours: 9-5", "Website: https://acme.test", "Address: 1 Main St"] =
      "1 Main St" ∧
    (∀ (label : String) (blocks : List String),
      (∀ b ∈ blocks, afterFirstStr label (strip b) = none) →
      extract_detail_by_label label blocks = "N/A") ∧
    (∀ (label : String) (pre : List String) (b : String) (post : List String) (rest : String),
      (∀ x ∈ pre, afterFirstStr label (strip x) = none) →
      afterFirstStr label (strip b) = some rest →
      extract_detail_by_label label (pre ++ b :: post) =
        if strip rest = "" then "N/A" else strip rest) := by
  refine ⟨by decide, by decide, ?_, ?_⟩
  · intro label blocks h
    induction blocks with
    | nil => rfl
    | cons x xs ih =>
      simp only [extract_detail_by_label, h x (List.mem_cons_self x xs)]
      exact ih fun y hy => h y (List.mem_cons_of_mem _ hy)
  · intro label pre b post rest hpre hb
    induction pre with
    | nil =>
      simp only [List.nil_append, extract_detail_by_label, hb]
    | cons x xs ih =>
      simp only [List.cons_append, extract_detail_by_label,
        hpre x (List.mem_cons_self x xs)]
      exact ih fun y hy => hpre y (List.mem_cons_of_mem _ hy)

/-- Witness for C4's general conjuncts at concrete inputs. -/
theorem claim_C4_witness :
    extract_detail_by_label "Website:" ["Hours: 9-5"] = "N/A" ∧
    extract_detail_by_label "Website:" (["Hours: 9-5"] ++ "Website: https://acme.test" :: []) =
      (if strip " https://acme.test" = "" then "N/A" else strip " https://acme.test") :=
  ⟨claim_C4_detail_label_extraction.2.2.1 "Website:" ["Hours: 9-5"] (by decide),
   claim_C4_detail_label_extraction.2.2.2 "Website:" ["Hours: 9-5"]
     "Website: https://acme.test" [] " https://acme.test" (by decide) (by decide)⟩


theorem crawler_run_map_url (pages : String → Option PageState) (bad : String)
    (hbad : pages bad = none) :
    ∀ links : List String, (∀ u ∈ links, u ≠ bad → (pages u).isSome) →
      (crawler_run pages links).map BusinessRecord.url =
        links.filter (fun u => u != bad) := by
  intro links
  induction links with
  | nil => intro _; rfl
  | cons u rest ih =>
    intro hok
    rw [List.filter_cons]
    by_cases hu : u = bad
    · subst hu
      rw [if_neg (by simp)]
      simp only [crawler_run, hbad]
      exact ih fun x hx h => hok x (List.mem_cons_of_mem _ hx) h
    · obtain ⟨page, hp⟩ :=
        Option.isSome_iff_exists.mp (hok u (List.mem_cons_self u rest) hu)
      rw [if_pos (bne_iff_ne.mpr hu)]
      simp only [crawler_run, hp, List.map_cons]
      rw [ih fun x hx h => hok x (List.mem_cons_of_mem _ hx) h]
      rfl

theorem filter_bne_length_add_count (bad : String) :
    ∀ l : List String, (l.filter (fun u => u != bad)).length + l.count bad = l.length := by
  intro l
  induction l with
  | nil => rfl
  | cons u rest ih =>
    rw [List.count_cons, List.filter_cons]
    by_cases hu : u = bad
    · subst hu
      rw [if_neg (by simp), if_pos (by simp)]
      simp only [List.length_cons]
      omega
    · rw [if_pos (bne_iff_ne.mpr hu), if_neg (fun h => hu (beq_iff_eq.mp h))]
      simp only [List.length_cons]
      omega

/-- C1: when exactly one harvested URL fails with an unexpected error
(modelled as `pages bad = none`) and every other URL extracts, the
per-URL loop of `OneFlareCrawler.run` yields exactly N-1 records, none
of them for the failing URL, and the surviving records keep harvest
order (their source URLs are the harvest list with the failing URL
removed); the loop itself never aborts. -/
theorem claim_C1_orchestrator_isolation (pages : String → Option PageState)
    (bad : String) (links : List String)
    (hbad : pages bad = none)
    (hcount : links.count bad = 1)
    (hok : ∀ u ∈ links, u ≠ bad → (pages u).isSome) :
    (crawler_run pages links).length = links.length - 1 ∧
    (∀ r ∈ crawler_run pages links, r.url ≠ bad) ∧
    (crawler_run pages links).map BusinessRecord.url =
      links.filter (fun u => u != bad) := by
  have hmap := crawler_run_map_url pages bad hbad links hok
  refine ⟨?_, ?_, hmap⟩
  · have hlen : (crawler_run pages links).length =
        (links.filter (fun u => u != bad)).length := by
      rw [← List.length_map (crawler_run pages links) BusinessRecord.url, hmap]
    have hfc := filter_bne_length_add_count bad links
    rw [hcount] at hfc
    omega
  · intro r hr
    have hmem : r.url ∈ (crawler_run pages links).map BusinessRecord.url :=
      List.mem_map_of_mem BusinessRecord.url hr
    rw [hmap] at hmem
    exact bne_iff_ne.mp ((List.mem_filter.mp hmem).2)

/-- Concrete witness for C1: three harvested URLs of which exactly the
middle one fails. -/
theorem claim_C1_witness :
    (crawler_run
        (fun u => if u = "https://b.test" then none else some ⟨none, none, none, []⟩)
        ["https://a.test", "https://b.test", "https://c.test"]).length =
      (["https://a.test", "https://b.test", "https://c.test"] : List String).length - 1 ∧
    (∀ r ∈ crawler_run
        (fun u => if u = "https://b.test" then none else some ⟨none, none, none, []⟩)
        ["https://a.test", "https://b.test", "https://c.test"],
      r.url ≠ "https://b.test") ∧
    (crawler_run
        (fun u => if u = "https://b.test" then none else some ⟨none, none, none, []⟩)
        ["https://a.test", "https://b.test", "https://c.test"]).map BusinessRecord.url =
      (["https://a.test", "https://b.test", "https://c.test"] : List String).filter
        (fun u => u != "https://b.test") :=
  claim_C1_orchestrator_isolation
    (fun u => if u = "https://b.test" then none else some ⟨none, none, none, []⟩)
    "https://b.test"
    ["https://a.test", "https://b.test", "https://c.test"]
    (by decide) (by decide) (by decide)

/-- Counterexample to C5 as stated: the phone anchor is present, the
click fails, the visible text is the literal string "N/A" — the
resulting trimmed text is nonempty, yet the extractor returns "N/A", so
"returns N/A exactly when the element is absent or the resulting text
is empty" is false in the only-if direction. -/
theorem claim_C5_counterexample :
    extract_phone_number (some (⟨"N/A", "0412 345 678", true⟩ : PhoneElem)) = "N/A" ∧
    strip (phoneText (⟨"N/A", "0412 345 678", true⟩ : PhoneElem)) ≠ "" := by
  decide

/-- C5 amended: a failing click is swallowed and the already-visible
trimmed text is returned when it is nonempty; the sentinel is returned
whenever the element is absent or the resulting trimmed text is empty
(the converse of the last part fails only when the page text is itself
the literal sentinel). -/
theorem claim_C5_phone_amended :
    (∀ p : PhoneElem, p.clickFails = true → strip p.visibleText ≠ "" →
      extract_phone_number (some p) = strip p.visibleText) ∧
    extract_phone_number none = "N/A" ∧
    (∀ p : PhoneElem, strip (phoneText p) = "" → extract_phone_number (some p) = "N/A") := by
  refine ⟨?_, rfl, ?_⟩
  · intro p hc hne
    simp [extract_phone_number, phoneText, hc, hne]
  · intro p h
    simp [extract_phone_number, h]

/-- Witness for C5's amended claim at concrete inputs. -/
theorem claim_C5_witness :
    extract_phone_number (some (⟨" 0412 345 678 ", "x", true⟩ : PhoneElem)) =
      strip " 0412 345 678 " ∧
    extract_phone_number (some (⟨"   ", "", true⟩ : PhoneElem)) = "N/A" :=
  ⟨claim_C5_phone_amended.1 ⟨" 0412 345 678 ", "x", true⟩ rfl (by decide),
   claim_C5_phone_amended.2.2 ⟨"   ", "", true⟩ (by decide)⟩

/-- A `CrawlerSettings` value with a negative preload delay (and
otherwise the source defaults). -/
def negative_delay_settings : CrawlerSettings :=
  ⟨"https://www.oneflare.com.au/air-conditioning", -1, 3, "business_data.xlsx", 15,
   "//section[4]//li/h3/a", "//h1", "//main/div/section[1]/section/section[1]/p",
   "//a[@data-tooltip-content='Click to show number']", ".sc-906e671e-5.bQwqNJ"⟩

/-- Counterexample to C6 as stated: `__post_init__` accepts a settings
object whose preload delay is negative, so delay/timeout bounds are not
rejected at construction time and a constructed object need not satisfy
them. -/
theorem claim_C6_counterexample :
    post_init negative_delay_settings = Except.ok negative_delay_settings ∧
    negative_delay_settings.preload_delay < 0 := by
  constructor
  · rfl
  · decide

/-- C6 amended: construction fails fast exactly on an empty category
URL (raised immediately, no partial object); any settings object that
construction returns has a nonempty category URL; no numeric field is
validated, so any delay or timeout values are accepted when the URL is
nonempty. -/
theorem claim_C6_settings_amended (s : CrawlerSettings) :
    (s.category_url = "" → post_init s = Except.error "category_url must not be empty.") ∧
    (s.category_url ≠ "" → post_init s = Except.ok s) ∧
    (∀ s2 : CrawlerSettings, post_init s = Except.ok s2 →
      s2 = s ∧ s2.category_url ≠ "") := by
  refine ⟨?_, ?_, ?_⟩
  · intro h; simp [post_init, h]
  · intro h; simp [post_init, h]
  · intro s2 h2
    by_cases h : s.category_url = ""
    · simp [post_init, h] at h2
    · simp only [post_init, if_neg h, Except.ok.injEq] at h2
      subst h2
      exact ⟨rfl, h⟩

/-- Witness for C6's amended claim: the empty URL is rejected, the
default URL with a negative delay is accepted. -/
theorem claim_C6_witness :
    post_init ⟨"", 60, 3, "business_data.xlsx", 15, "a", "b", "c", "d", "e"⟩ =
      Except.error "category_url must not be empty." ∧
    post_init negative_delay_settings = Except.ok negative_delay_settings :=
  ⟨(claim_C6_settings_amended ⟨"", 60, 3, "business_data.xlsx", 15, "a", "b", "c", "d", "e"⟩).1 rfl,
   (claim_C6_settings_amended negative_delay_settings).2.1 (by decide)⟩

/-- C7: `_collect_business_links` returns exactly the href values of the
found anchors in order with absent and empty hrefs skipped, and the
zero-anchor page yields the empty list (no error — the function is
total). -/
theorem claim_C7_link_harvest (links : List LinkElem) :
    collect_business_links links =
      (links.filterMap LinkElem.href).filter (fun h => h != "") ∧
    collect_business_links [] = [] := by
  refine ⟨?_, rfl⟩
  induction links with
  | nil => rfl
  | cons l ls ih =>
    cases hl : l.href with
    | none => simp [collect_business_links, List.filterMap_cons, hl, ih]
    | some h =>
      by_cases he : h = ""
      · subst he
        simp [collect_business_links, List.filterMap_cons, hl, List.filter_cons, ih]
      · simp [collect_business_links, List.filterMap_cons, hl, List.filter_cons,
          bne_iff_ne, he, ih]

/-- C8: a zero-link harvest gives zero records and the export sink is
still reached, producing the header-only file with the six columns in
declaration order (no exception — the pipeline is total). -/
theorem claim_C8_zero_link_export (links : List LinkElem)
    (pages : String → Option PageState)
    (h : collect_business_links links = []) :
    crawler_run pages (collect_business_links links) = [] ∧
    mainExport links pages =
      ⟨["business_name", "jobs_completed", "phone_number", "website_url", "address", "url"],
       []⟩ := by
  constructor
  · rw [h]; rfl
  · unfold mainExport
    rw [h]
    rfl

/-- Witness for C8 at a concrete zero-link page. -/
theorem claim_C8_witness :
    mainExport [] (fun _ => none) =
      ⟨["business_name", "jobs_completed", "phone_number", "website_url", "address", "url"],
       []⟩ :=
  (claim_C8_zero_link_export [] (fun _ => none) rfl).2

/-- C9: crawl_V3.py `main` wraps `crawler.run()` in try/finally, so for
every possible outcome of the run body — normal return or an unexpected
exception partway through extraction — the browser session is closed
(`driver.quit()`) before the program goes on or terminates. -/
theorem claim_C9_session_closed
    (body : Session → Except Unit (List BusinessRecord) × Session) (s : Session) :
    ((mainV3 body s).2).closed = true := by
  rcases hbs : body s with ⟨res, s1⟩
  simp only [mainV3, pyTryFinally, quitSession, hbs]
  cases res <;> rfl

/-! ### V2/V3 comparison (C10) -/

/-- A page whose jobs-block text carries a thousands separator: V2 (no
comma stripping) extracts "1", V3 extracts "1234". -/
def diverging_page : PageState :=
  ⟨some "Acme Air", some "1,234 jobs completed", none, []⟩

/-- The name lookup result agrees between V2 and V3 iff absent, or its
text already trimmed and nonempty. -/
def nameTame : Option String → Bool
  | none => true
  | some t => (strip t == t) && (t != "")

/-- The jobs lookup result: text already trimmed and comma-free. -/
def jobsTame : Option String → Bool
  | none => true
  | some t => (strip t == t) && (removeCommas t == t)

/-- The phone anchor: click succeeds and the revealed text is already
trimmed and nonempty. -/
def phoneTame : Option PhoneElem → Bool
  | none => true
  | some ph =>
    (ph.clickFails == false) && (strip ph.revealedText == ph.revealedText) &&
      (ph.revealedText != "")

/-- One detail block with respect to one label: the label occurs at most
once and, when it occurs, the trimmed value after it is nonempty. -/
def detailLabelTame (label b : String) : Bool :=
  match afterFirstStr label b with
  | none => true
  | some rest => (afterFirst label.data rest.data == none) && (strip rest != "")

/-- A page state on which crawl_V2.py's `extract_data` and crawl_V3.py's
`_extract_business_data` agree field by field. -/
def tamePage (p : PageState) : Bool :=
  nameTame p.nameElem && jobsTame p.jobsElem && phoneTame p.phoneElem &&
    p.detailBlocks.all fun b =>
      (strip b == b) && detailLabelTame "Website:" b && detailLabelTame "Address:" b

theorem v2_name_eq_v3 (e : Option String) (h : nameTame e = true) :
    v2_business_name e = safe_get_text e := by
  cases e with
  | none => rfl
  | some t =>
    simp only [nameTame, Bool.and_eq_true, beq_iff_eq, bne_iff_ne] at h
    simp [v2_business_name, safe_get_text, h.1, h.2]

theorem v2_jobs_eq_v3 (e : Option String) (h : jobsTame e = true) :
    v2_jobs_completed e = extract_jobs_completed e := by
  cases e with
  | none => rfl
  | some t =>
    simp only [jobsTame, Bool.and_eq_true, beq_iff_eq] at h
    obtain ⟨h1, h2⟩ := h
    by_cases ht : t = ""
    · subst ht; rfl
    · by_cases hna : t = "N/A"
      · subst hna; rfl
      · simp only [extract_jobs_completed, safe_get_text, h1, if_neg ht, if_neg hna,
          v2_jobs_completed, h2]

theorem v2_phone_eq_v3 (e : Option PhoneElem) (h : phoneTame e = true) :
    v2_phone_number e = extract_phone_number e := by
  cases e with
  | none => rfl
  | some ph =>
    simp only [phoneTame, Bool.and_eq_true, beq_iff_eq, bne_iff_ne] at h
    obtain ⟨⟨hc, hs⟩, hne⟩ := h
    simp [v2_phone_number, extract_phone_number, phoneText, hc, hs, hne]

theorem v2_detail_eq_v3 (label : String) (blocks : List String)
    (h : ∀ b ∈ blocks, strip b = b ∧ detailLabelTame label b = true) :
    v2_detail_value label blocks = extract_detail_by_label label blocks := by
  induction blocks with
  | nil => rfl
  | cons b bs ih =>
    obtain ⟨hs, ht⟩ := h b (List.mem_cons_self b bs)
    cases ha : afterFirstStr label b with
    | none =>
      have ha3 : afterFirstStr label (strip b) = none := by rw [hs]; exact ha
      simp only [v2_detail_value, extract_detail_by_label, ha, ha3]
      exact ih fun x hx => h x (List.mem_cons_of_mem _ hx)
    | some rest =>
      have ha3 : afterFirstStr label (strip b) = some rest := by rw [hs]; exact ha
      simp only [detailLabelTame, ha, Bool.and_eq_true, beq_iff_eq, bne_iff_ne] at ht
      obtain ⟨h1, h2⟩ := ht
      have hbf : beforeFirstStr label rest = rest := by
        unfold beforeFirstStr
        rw [beforeFirst_of_afterFirst_none label.data rest.data h1]
      simp only [v2_detail_value, extract_detail_by_label, ha, ha3, hbf, if_neg h2]

/-- Counterexample to C10 as stated: on `diverging_page` (jobs text
"1,234 jobs completed") the V2 and V3 record constructions disagree —
V2's jobs field is "1", V3's is "1234". -/
theorem claim_C10_counterexample :
    extract_data diverging_page "https://example.test/acme" ≠
      extract_business_data diverging_page "https://example.test/acme" := by
  decide

/-- C10 amended: the V2 and V3 record constructions agree on every page
state in which each observed text is already trimmed, the name and
revealed phone texts are nonempty when present, the jobs text is
comma-free, the phone reveal click succeeds, and each detail block
carries each label at most once with a nonempty value after it; outside
this class the two versions can differ (thousands separators, raw vs
trimmed/empty texts, failing clicks, repeated labels). -/
theorem claim_C10_v2_v3_equiv (page : PageState) (url : String)
    (h : tamePage page = true) :
    extract_data page url = extract_business_data page url := by
  simp only [tamePage, Bool.and_eq_true, List.all_eq_true] at h
  obtain ⟨⟨⟨hname, hjobs⟩, hphone⟩, hdetail⟩ := h
  unfold extract_data extract_business_data
  rw [v2_name_eq_v3 page.nameElem hname,
    v2_jobs_eq_v3 page.jobsElem hjobs,
    v2_phone_eq_v3 page.phoneElem hphone,
    v2_detail_eq_v3 "Website:" page.detailBlocks
      (fun b hb => ⟨beq_iff_eq.mp (hdetail b hb).1.1, (hdetail b hb).1.2⟩),
    v2_detail_eq_v3 "Address:" page.detailBlocks
      (fun b hb => ⟨beq_iff_eq.mp (hdetail b hb).1.1, (hdetail b hb).2⟩)]

/-- A tame page on which the witness evaluates both constructions. -/
def tame_page_example : PageState :=
  ⟨some "Acme Air", some "1234 jobs completed",
   some ⟨"Reveal number", "0412 345 678", false⟩,
   ["Website: https://acme.test", "Address: 1 Main St"]⟩

/-- Witness for C10's amended claim at a concrete tame page. -/
theorem claim_C10_witness :
    tamePage tame_page_example = true ∧
    extract_data tame_page_example "https://example.test/acme" =
      extract_business_data tame_page_example "https://example.test/acme" :=
  ⟨by decide,
   claim_C10_v2_v3_equiv tame_page_example "https://example.test/acme" (by decide)⟩
